import Mathlib

/-!
Verification of the pgraft consensus/failover controller specification
against the pgElephant/ram repository.

The repository's Python tree contains the operational tooling
(`pgraft/examples/pgraft_cluster.py`, `scripts/cluster.py`) and its test
suites; those are embedded here directly.  The consensus core itself
(the `pgraft` PostgreSQL extension behind `pgraft_init`,
`pgraft_add_node`, `pgraft_get_cluster_status`,
`pgraft_get_worker_state`) is invoked by the tooling over SQL but its
implementation is not part of this tree, so the corresponding
definitions are modelled from the specification (each such definition
says so in its doc comment).
-/

namespace Pgraft

/-! ## Port probes (pgraft_cluster.py and scripts/cluster.py) -/

/-- Result of one Python `socket.connect_ex` probe: `Except.ok code` is
the integer result code returned by `connect_ex`, `Except.error ()` is
an exception raised anywhere inside the probe's `try` block. -/
def ProbeResult : Type := Except Unit Int

/-- A probe that raised an exception before producing a result code. -/
def probeRaises : ProbeResult := Except.error ()

/-- `PgraftClusterManager.is_port_in_use` (pgraft_cluster.py 177-186):
returns `connect_ex(('localhost', port)) == 0`, and `False` when the
probe raises any exception. -/
def is_port_in_use (r : ProbeResult) : Bool :=
  match r with
  | Except.ok code => code == 0
  | Except.error _ => false

/-- `ClusterManager._check_port_free` (scripts/cluster.py 202-211):
returns `connect_ex(('127.0.0.1', port)) != 0` (port free iff the
connection fails), and `True` (assume free) when the probe raises. -/
def check_port_free (r : ProbeResult) : Bool :=
  match r with
  | Except.ok code => !(code == 0)
  | Except.error _ => true

/-- The ports `PgraftClusterManager.check_port_availability`
(pgraft_cluster.py 143-175) probes, in source order: primary1's
PostgreSQL and pgraft ports, then each replica's PostgreSQL and pgraft
ports. -/
def checkedPorts : List Nat := [5432, 7001, 5433, 7002, 5434, 7003]

/-- `PgraftClusterManager.check_port_availability`: calls
`sys.exit(1)` as soon as a probed port reports in use, otherwise
returns normally.  `true` means every probe passed (no exit). -/
def check_port_availability (probe : Nat → ProbeResult) : Bool :=
  checkedPorts.all (fun p => !(is_port_in_use (probe p)))

/-! ## The worker wait loop of `setup_pgraft_extension`
(pgraft_cluster.py 487-529) -/

/-- One observation of `SELECT pgraft_get_worker_state()` inside the
wait loop: either the string the query returned, or an exception
raised while checking. -/
inductive WorkerObs where
  | state (s : String)
  | raised
deriving DecidableEq

/-- How the wait loop terminated. -/
inductive LoopExit where
  | sawRunning
  | sawError
  | sawRaise
  | exhausted
deriving DecidableEq

/-- The wait loop of `setup_pgraft_extension`: while
`waited_time < max_wait_time`, query the worker state; `break` on
`"RUNNING"`, `break` on `"ERROR"`, `break` if the query raises;
otherwise sleep one second and increment `waited_time`.  `obs k` is
the observation made when `waited_time = k`; the second argument is
the current `waited_time`, the third is `max_wait_time - waited_time`
(the number of iterations the guard still allows).  Returns the exit
kind and the final value of `waited_time`. -/
def waitLoop (obs : Nat → WorkerObs) (waited : Nat) : Nat → LoopExit × Nat
  | 0 => (LoopExit.exhausted, waited)
  | remaining + 1 =>
    match obs waited with
    | WorkerObs.raised => (LoopExit.sawRaise, waited)
    | WorkerObs.state s =>
      if s = "RUNNING" then (LoopExit.sawRunning, waited)
      else if s = "ERROR" then (LoopExit.sawError, waited)
      else waitLoop obs (waited + 1) remaining

/-- What `setup_pgraft_extension` does right after the wait loop for
one node: `exit1` is `sys.exit(1)` ("Timeout waiting for worker to be
RUNNING"); `proceed` means the guard `waited_time >= max_wait_time`
was false, the node is logged as "pgraft consensus system ready" and
setup continues (ultimately reaching `configure_cluster_peers`). -/
inductive SetupStep where
  | exit1
  | proceed
deriving DecidableEq

/-- The post-loop check of `setup_pgraft_extension` with
`max_wait_time = 30`: exit iff `waited_time >= max_wait_time`. -/
def setupAfterWait (obs : Nat → WorkerObs) : SetupStep :=
  if 30 ≤ (waitLoop obs 0 30).2 then SetupStep.exit1 else SetupStep.proceed

/-! ## `PgraftClusterManager.get_cluster_status`
(pgraft_cluster.py 635-708) -/

/-- Outcome of the nested `pgraft_get_cluster_status()` query for one
node: a row came back (the code formats its eight fields into the
string carried here), `fetchone()` returned no row, or the query
raised `psycopg2.Error`. -/
inductive PgQueryResult where
  | row (formatted : String)
  | noRow
  | raisesErr
deriving DecidableEq

/-- Outcome of the nested replication-lag query for one node:
a lag value in bytes, a row with NULL LSNs (leaves the field as it
was), or a raised `psycopg2.Error`. -/
inductive LagOutcome where
  | lagValue (bytes : Int)
  | lagNull
  | lagRaises
deriving DecidableEq

/-- Outcome of handling one node inside `get_cluster_status`: the
psycopg2 connection either succeeds (carrying the outcomes of the two
nested queries) or raises `psycopg2.Error` with message `err`. -/
inductive ConnOutcome where
  | connected (pgraftStatus : PgQueryResult) (lag : LagOutcome)
  | connFailed (err : String)
deriving DecidableEq

/-- The per-node dictionary `node_status` built by
`get_cluster_status` (the `timestamp` field of the outer dictionary,
taken from the wall clock, is not modelled). -/
structure NodeStatus where
  name : String
  port : Nat
  pgraft_port : Nat
  status : String
  pgraft_state : String
  replication_lag : String
  error : Option String
deriving DecidableEq

/-- One node of `get_cluster_status`: start from the defaults
(`unknown` everywhere), then fill fields along the code's paths; on
`psycopg2.Error` from the connection set `status = 'error'` and record
the message. -/
def nodeStatusOf (name : String) (port pgraftPort : Nat) (o : ConnOutcome) : NodeStatus :=
  match o with
  | ConnOutcome.connFailed e =>
    { name := name, port := port, pgraft_port := pgraftPort,
      status := "error", pgraft_state := "unknown",
      replication_lag := "unknown", error := some e }
  | ConnOutcome.connected q lag =>
    { name := name, port := port, pgraft_port := pgraftPort,
      status := "running",
      pgraft_state :=
        match q with
        | PgQueryResult.row formatted => formatted
        | PgQueryResult.noRow => "No data"
        | PgQueryResult.raisesErr => "error",
      replication_lag :=
        if name ≠ "primary" then
          match lag with
          | LagOutcome.lagValue bytes => toString bytes ++ " bytes"
          | LagOutcome.lagNull => "unknown"
          | LagOutcome.lagRaises => "unknown"
        else "unknown",
      error := none }

/-- The fixed node table of `PgraftClusterManager.__init__`
(pgraft_cluster.py 54-79), in dictionary insertion order:
(name, PostgreSQL port, pgraft port). -/
def clusterNodes : List (String × Nat × Nat) :=
  [("primary1", 5432, 7001), ("replica1", 5433, 7002), ("replica2", 5434, 7003)]

/-- The dictionary returned by `get_cluster_status`. -/
structure ClusterStatus where
  nodes : List (String × NodeStatus)
  cluster_health : String
deriving DecidableEq

/-- `PgraftClusterManager.get_cluster_status`: builds one
`node_status` per configured node (every psycopg2 failure is caught,
so construction is total), counts the nodes whose status is
`'running'`, and classifies `cluster_health` as `'healthy'` when the
count equals the number of configured nodes, `'degraded'` when it is
positive, and `'down'` otherwise. -/
def get_cluster_status (outcome : String → ConnOutcome) : ClusterStatus :=
  let nodes := clusterNodes.map (fun nc => (nc.1, nodeStatusOf nc.1 nc.2.1 nc.2.2 (outcome nc.1)))
  let running := (nodes.filter (fun p => p.2.status == "running")).length
  { nodes := nodes,
    cluster_health :=
      if running = clusterNodes.length then "healthy"
      else if 0 < running then "degraded"
      else "down" }

/-! ## The consensus core, modelled from the specification

The pgraft extension's implementation is not part of the repository's
Python tree; the definitions below are modelled from the
specification's data model (spec sections 3-4) and interface contract
(spec sections 4.1, 4.3, 4.5, 6). -/

/-- Modelled from the spec: the derived node role of the missing
pgraft Raft Core, one of follower, candidate, leader (spec section 3,
Node). -/
inductive Role where
  | follower
  | candidate
  | leader
deriving DecidableEq

/-- Modelled from the spec: a cluster member's identity as held by the
missing Membership Manager: numeric id, network address, port (spec
section 3, Node). -/
structure Member where
  nodeId : Nat
  address : String
  port : Nat
deriving DecidableEq

/-- Modelled from the spec: the set of voters in term `t` that granted
their vote to candidate `c`, where `vote v t` is the single candidate
node `v` granted its vote to in term `t` (`none` when it has not
voted).  The functional type of `vote` embeds the invariant that a
node grants at most one vote per term (spec section 3, Term). -/
def votersFor (members : Finset Nat) (vote : Nat → Nat → Option Nat) (t c : Nat) :
    Finset Nat :=
  members.filter (fun v => vote v t = some c)

/-- Modelled from the spec: a candidate transitions from Candidate to
Leader in term `t` exactly when a strict majority of the current
voting membership granted it their votes in that term (spec sections
4.1 state machine and Glossary, Quorum/majority). -/
def grantedMajority (members : Finset Nat) (vote : Nat → Nat → Option Nat) (t c : Nat) :
    Prop :=
  members.card < 2 * (votersFor members vote t c).card

instance (members : Finset Nat) (vote : Nat → Nat → Option Nat) (t c : Nat) :
    Decidable (grantedMajority members vote t c) := by
  unfold grantedMajority
  infer_instance

/-- Modelled from the spec: the hot state of the missing Raft Core
(spec sections 3 and 5): current term, vote record, derived role, and
leader visibility. -/
structure RaftCore where
  currentTerm : Nat
  votedFor : Option Nat
  role : Role
  leaderId : Option Nat
deriving DecidableEq

/-- Modelled from the spec: the Health Worker's counters, incremented
where Raft Core emits/receives the corresponding message classes and
exposed verbatim in the Cluster State Snapshot (spec section 4.4). -/
structure WorkerCounters where
  messagesProcessed : Nat
  heartbeatsSent : Nat
  electionsTriggered : Nat
deriving DecidableEq

/-- Modelled from the spec: the local state of one pgraft node that
the Status surface projects from: Raft Core + Membership Manager +
counters (spec section 3, Cluster State Snapshot). -/
structure PgraftNode where
  nodeId : Nat
  core : RaftCore
  membership : List Member
  counters : WorkerCounters
deriving DecidableEq

/-- Modelled from the spec: the missing `pgraft_get_cluster_status`
function behind the status query: a read-only projection of local
state into the eight-field Cluster State Snapshot tuple, in the stable
field order node_id, current_term, leader_id (nullable), role,
member_count, messages_processed, heartbeats_sent,
elections_triggered (spec sections 3, 4.5 and 6; unpacked in exactly
this order by `verify_cluster` and `get_cluster_status` in
pgraft_cluster.py 612 and 671). -/
def pgraft_get_cluster_status (n : PgraftNode) :
    Nat × Nat × Option Nat × Role × Nat × Nat × Nat × Nat :=
  (n.nodeId, n.core.currentTerm, n.core.leaderId, n.core.role,
   n.membership.length, n.counters.messagesProcessed,
   n.counters.heartbeatsSent, n.counters.electionsTriggered)

/-- Modelled from the spec: the result of `addNode` at the Membership
Manager of the missing pgraft extension: accepted, rejected because
the node id is already present with a conflicting address/port
(ConfigurationConflict, spec section 7), or rejected with a "not
leader" signal carrying the known leader id (spec section 4.3). -/
inductive AddNodeResult where
  | accepted
  | rejectedDuplicate
  | rejectedNotLeader (leaderId : Option Nat)
deriving DecidableEq

/-- Modelled from the spec: the state `addNode` acts on: the node's
derived role, its view of the current leader, the committed membership
set, and the log of committed membership-change entries appended
through Raft Core. -/
structure MembershipState where
  role : Role
  leaderId : Option Nat
  members : List Member
  changeLog : List Member
deriving DecidableEq

/-- Modelled from the spec: `addNode(nodeId, address, port)` of the
missing Membership Manager, observed at commit time (callers observe
success only after the entry commits, spec section 4.3): a non-leader
rejects with the "not leader" signal carrying the known leader id and
changes nothing; an add of an already-present identical member after a
prior success is a no-op reported as success (idempotent retry); an
add whose node id is present with a different address or port is a
ConfigurationConflict rejection with no state change; otherwise the
entry is proposed through the log and the member is appended once it
commits. -/
def addNode (s : MembershipState) (nodeId : Nat) (address : String) (port : Nat) :
    AddNodeResult × MembershipState :=
  if s.role ≠ Role.leader then
    (AddNodeResult.rejectedNotLeader s.leaderId, s)
  else if (⟨nodeId, address, port⟩ : Member) ∈ s.members then
    (AddNodeResult.accepted, s)
  else if s.members.any (fun m => m.nodeId == nodeId) then
    (AddNodeResult.rejectedDuplicate, s)
  else
    (AddNodeResult.accepted,
      { s with members := s.members ++ [⟨nodeId, address, port⟩],
               changeLog := s.changeLog ++ [⟨nodeId, address, port⟩] })

/-- Modelled from the spec: the node identity persisted by the missing
`pgraft_init` bootstrap (spec section 4.5). -/
structure NodeIdentity where
  nodeId : Nat
  address : String
  port : Nat
deriving DecidableEq

/-- Modelled from the spec: `pgraft_init(nodeId, address, port)` of
the missing pgraft extension, an idempotent one-time bootstrap over
the persisted identity (`none` before the first call): first call
succeeds and records the identity; a call with the already-recorded
identity succeeds as a no-op; a call against a node initialized with a
different identity fails (spec section 4.5; invoked via SQL by
`scripts/cluster.py` 335-348 and `test_pgraft_unit.py` 50-54). -/
def pgraft_init (st : Option NodeIdentity) (i : NodeIdentity) :
    Bool × Option NodeIdentity :=
  match st with
  | none => (true, some i)
  | some j => if i = j then (true, some j) else (false, some j)

/-- Modelled from the spec: a replicated log entry's payload: a no-op
heartbeat marker or a membership change (spec section 3, Log
Entry). -/
inductive Payload where
  | heartbeat
  | addMember (m : Member)
  | removeMember (nodeId : Nat)
deriving DecidableEq

/-- Modelled from the spec: a log entry, tagged with the term in which
it was created (spec section 3, Log Entry). -/
structure LogEntry where
  term : Nat
  payload : Payload
deriving DecidableEq

/-- Modelled from the spec: the per-node Raft Core state mutated by
`tick` and the inbound message handlers (spec sections 4.1 and 5);
entries are 1-indexed, so `log.length` is the last log index. -/
structure RaftState where
  selfId : Nat
  currentTerm : Nat
  votedFor : Option Nat
  role : Role
  log : List LogEntry
  commitIndex : Nat
deriving DecidableEq

/-- Modelled from the spec: the term of the last log entry (0 for an
empty log). -/
def lastLogTerm (log : List LogEntry) : Nat :=
  (log.getLast?).elim 0 LogEntry.term

/-- Modelled from the spec: the candidate's log is at least as up to
date as the local log: compare last-entry term, then index (spec
section 4.1, requestVote). -/
def logUpToDate (s : RaftState) (candLastIndex candLastTerm : Nat) : Prop :=
  lastLogTerm s.log < candLastTerm ∨
    (candLastTerm = lastLogTerm s.log ∧ s.log.length ≤ candLastIndex)

instance (s : RaftState) (i t : Nat) : Decidable (logUpToDate s i t) := by
  unfold logUpToDate
  infer_instance

/-- Modelled from the spec: the term of the entry at 1-based index
`i`, with index 0 denoting the empty prefix (term 0) and `none` when
the log has no entry at `i`. -/
def termAt (log : List LogEntry) : Nat → Option Nat
  | 0 => some 0
  | j + 1 => (log.get? j).map LogEntry.term

/-- Modelled from the spec: adopting a higher term observed in a
received message: the node adopts the term, clears its own
candidacy/leadership, and clears its vote for the new term (spec
sections 4.1 and 6). -/
def stepDown (s : RaftState) (t : Nat) : RaftState :=
  { s with currentTerm := t, role := Role.follower, votedFor := none }

/-- Modelled from the spec: any recipient observing a term greater
than its own immediately adopts it and reverts to follower before
processing the rest of the message (spec section 6). -/
def adoptIfHigher (s : RaftState) (t : Nat) : RaftState :=
  if s.currentTerm < t then stepDown s t else s

/-- Modelled from the spec: the `requestVote` handler of the missing
Raft Core (spec section 4.1): if the candidate's term is higher, adopt
it first; grant the vote iff the candidate's term is at least the
current term, no vote has been cast this term or it was already
granted to this candidate, and the candidate's log is at least as up
to date.  Returns `((voteGranted, currentTerm), newState)`. -/
def requestVote (s : RaftState) (candidateId candidateTerm candLastIndex candLastTerm : Nat) :
    (Bool × Nat) × RaftState :=
  let s1 := adoptIfHigher s candidateTerm
  if s1.currentTerm ≤ candidateTerm ∧
      (s1.votedFor = none ∨ s1.votedFor = some candidateId) ∧
      logUpToDate s1 candLastIndex candLastTerm then
    ((true, s1.currentTerm), { s1 with votedFor := some candidateId })
  else
    ((false, s1.currentTerm), s1)

/-- Modelled from the spec: the `appendEntries` handler of the missing
Raft Core (spec section 4.1): fail if the leader's term is stale;
adopt a strictly higher term and revert to follower; fail if the log
has no entry at `prevLogIndex` with term `prevLogTerm`; otherwise
overwrite the suffix from the conflict point with the leader's entries
and advance the commit index to `min(leaderCommit, lastNewIndex)`.
Returns `((success, currentTerm), newState)`. -/
def appendEntries (s : RaftState) (leaderTerm prevLogIndex prevLogTerm : Nat)
    (entries : List LogEntry) (leaderCommit : Nat) : (Bool × Nat) × RaftState :=
  if leaderTerm < s.currentTerm then
    ((false, s.currentTerm), s)
  else
    let s1 := adoptIfHigher s leaderTerm
    match termAt s1.log prevLogIndex with
    | none => ((false, s1.currentTerm), s1)
    | some t =>
      if t = prevLogTerm then
        ((true, s1.currentTerm),
          { s1 with log := s1.log.take prevLogIndex ++ entries,
                    commitIndex :=
                      max s1.commitIndex (min leaderCommit (prevLogIndex + entries.length)) })
      else ((false, s1.currentTerm), s1)

/-- Modelled from the spec: one invocation of the scheduled `tick`
(spec section 4.1): a follower or candidate whose election timeout has
elapsed (`timeoutElapsed`, randomized per node and thus an input here)
transitions to candidate, increments its term and votes for itself; a
leader broadcasts heartbeats without changing this state. -/
def tick (s : RaftState) (timeoutElapsed : Bool) : RaftState :=
  match s.role with
  | Role.leader => s
  | _ =>
    if timeoutElapsed then
      { s with currentTerm := s.currentTerm + 1, role := Role.candidate,
               votedFor := some s.selfId }
    else s

/-- Modelled from the spec: the three execution contexts that mutate
Raft Core state over a node's lifetime: inbound `requestVote` and
`appendEntries` messages and the periodic `tick` (spec section 5). -/
inductive RaftOp where
  | vote (candidateId candidateTerm candLastIndex candLastTerm : Nat)
  | append (leaderTerm prevLogIndex prevLogTerm : Nat)
      (entries : List LogEntry) (leaderCommit : Nat)
  | tickTimer (timeoutElapsed : Bool)
deriving DecidableEq

/-- Modelled from the spec: the state transition of one operation. -/
def applyOp (s : RaftState) (op : RaftOp) : RaftState :=
  match op with
  | RaftOp.vote cid ct cli clt => (requestVote s cid ct cli clt).2
  | RaftOp.append lt pli plt es lc => (appendEntries s lt pli plt es lc).2
  | RaftOp.tickTimer te => tick s te

/-- Modelled from the spec: a node's lifetime is the serialized
sequence of mutations applied by the single-writer critical section
(spec section 5). -/
def runOps (s : RaftState) (ops : List RaftOp) : RaftState :=
  ops.foldl applyOp s

/-- Modelled from the spec: the Worker Lifecycle State enum, a closed
tagged variant per node process (spec sections 3 and 9). -/
inductive WorkerState where
  | INIT
  | RUNNING
  | ERROR
deriving DecidableEq

/-- Modelled from the spec: the missing `pgraft_get_worker_state()`
query, serializing the lifecycle enum to its display string at the
query boundary (spec sections 6 and 9; consumed as a string by the
wait loop of `setup_pgraft_extension`). -/
def pgraft_get_worker_state : WorkerState → String
  | WorkerState.INIT => "INIT"
  | WorkerState.RUNNING => "RUNNING"
  | WorkerState.ERROR => "ERROR"

/-- Modelled from the spec: the lifecycle transitions within a single
process (no restart): INIT to RUNNING once the Health Worker begins
its loop, INIT or RUNNING to ERROR on unrecoverable failure, plus
stuttering; nothing leaves ERROR without a restart (spec section 3,
Worker Lifecycle State). -/
inductive WorkerStep : WorkerState → WorkerState → Prop where
  | start : WorkerStep WorkerState.INIT WorkerState.RUNNING
  | failInit : WorkerStep WorkerState.INIT WorkerState.ERROR
  | failRunning : WorkerStep WorkerState.RUNNING WorkerState.ERROR
  | stay (s : WorkerState) : WorkerStep s s

/-! ## Theorems -/

/-- C1: Election safety: for every term, at most one node in the
cluster is granted a majority of votes in the current membership of
that term and transitions to the Leader role in that term. -/
theorem election_safety (members : Nat → Finset Nat) (vote : Nat → Nat → Option Nat)
    (t c1 c2 : Nat) (h1 : grantedMajority (members t) vote t c1)
    (h2 : grantedMajority (members t) vote t c2) : c1 = c2 := by
  unfold grantedMajority at h1 h2
  have hs1 : votersFor (members t) vote t c1 ⊆ members t := Finset.filter_subset _ _
  have hs2 : votersFor (members t) vote t c2 ⊆ members t := Finset.filter_subset _ _
  have hcard : (votersFor (members t) vote t c1 ∪ votersFor (members t) vote t c2).card ≤
      (members t).card :=
    Finset.card_le_card (Finset.union_subset hs1 hs2)
  have hsum := Finset.card_union_add_card_inter (votersFor (members t) vote t c1)
    (votersFor (members t) vote t c2)
  have hpos : 0 <
      (votersFor (members t) vote t c1 ∩ votersFor (members t) vote t c2).card := by
    omega
  obtain ⟨v, hv⟩ := Finset.card_pos.mp hpos
  rw [Finset.mem_inter] at hv
  simp only [votersFor, Finset.mem_filter] at hv
  have e1 := hv.1.2
  have e2 := hv.2.2
  rw [e1] at e2
  exact Option.some.inj e2

/-- Witness for C1 at a concrete three-node membership in which every
node voted for candidate 5 in term 0. -/
theorem election_safety_witness :
    grantedMajority ({1, 2, 3} : Finset Nat) (fun _ _ => some 5) 0 5 ∧ (5 : Nat) = 5 :=
  ⟨by decide,
   election_safety (fun _ => ({1, 2, 3} : Finset Nat)) (fun _ _ => some 5) 0 5 5
     (by decide) (by decide)⟩

/-- C2: the status query returns the eight-field Cluster State
Snapshot tuple in the stable field order node_id, current_term,
leader_id, role, member_count, messages_processed, heartbeats_sent,
elections_triggered, for every state of the node. -/
theorem cluster_status_snapshot_fields (n : PgraftNode) :
    (pgraft_get_cluster_status n).1 = n.nodeId ∧
    (pgraft_get_cluster_status n).2.1 = n.core.currentTerm ∧
    (pgraft_get_cluster_status n).2.2.1 = n.core.leaderId ∧
    (pgraft_get_cluster_status n).2.2.2.1 = n.core.role ∧
    (pgraft_get_cluster_status n).2.2.2.2.1 = n.membership.length ∧
    (pgraft_get_cluster_status n).2.2.2.2.2.1 = n.counters.messagesProcessed ∧
    (pgraft_get_cluster_status n).2.2.2.2.2.2.1 = n.counters.heartbeatsSent ∧
    (pgraft_get_cluster_status n).2.2.2.2.2.2.2 = n.counters.electionsTriggered :=
  ⟨rfl, rfl, rfl, rfl, rfl, rfl, rfl, rfl⟩

/-- C4: an addNode call issued against a node whose role is not
Leader is rejected with the "not leader" signal carrying the known
leader id, and the node's membership set and change log are unchanged
(the returned state is exactly the input state). -/
theorem addNode_not_leader_rejected (s : MembershipState) (nodeId : Nat)
    (address : String) (port : Nat) (h : s.role ≠ Role.leader) :
    addNode s nodeId address port = (AddNodeResult.rejectedNotLeader s.leaderId, s) := by
  simp only [addNode, if_pos h]

/-- Witness for C4 at a concrete follower that knows leader 1. -/
theorem addNode_not_leader_rejected_witness :
    (⟨Role.follower, some 1, [], []⟩ : MembershipState).role ≠ Role.leader ∧
    addNode ⟨Role.follower, some 1, [], []⟩ 4 "127.0.0.1" 7004 =
      (AddNodeResult.rejectedNotLeader (some 1), ⟨Role.follower, some 1, [], []⟩) :=
  ⟨by decide,
   addNode_not_leader_rejected ⟨Role.follower, some 1, [], []⟩ 4 "127.0.0.1" 7004
     (by decide)⟩

/-- C5: pgraft_init is an idempotent one-time bootstrap: it succeeds
on a fresh node and records the identity, succeeds as a no-op when
called again with the recorded identity, and fails (leaving the
recorded identity unchanged) when the node is initialized with a
different identity. -/
theorem pgraft_init_bootstrap (i j : NodeIdentity) (h : i ≠ j) :
    pgraft_init none i = (true, some i) ∧
    pgraft_init (some i) i = (true, some i) ∧
    pgraft_init (some j) i = (false, some j) := by
  refine ⟨rfl, ?_, ?_⟩
  · simp [pgraft_init]
  · simp [pgraft_init, h]

/-- Witness for C5 at two concrete distinct identities. -/
theorem pgraft_init_bootstrap_witness :
    (⟨1, "127.0.0.1", 7001⟩ : NodeIdentity) ≠ ⟨2, "127.0.0.1", 7002⟩ ∧
    pgraft_init none ⟨1, "127.0.0.1", 7001⟩ = (true, some ⟨1, "127.0.0.1", 7001⟩) ∧
    pgraft_init (some ⟨1, "127.0.0.1", 7001⟩) ⟨1, "127.0.0.1", 7001⟩ =
      (true, some ⟨1, "127.0.0.1", 7001⟩) ∧
    pgraft_init (some ⟨2, "127.0.0.1", 7002⟩) ⟨1, "127.0.0.1", 7001⟩ =
      (false, some ⟨2, "127.0.0.1", 7002⟩) :=
  ⟨by decide,
   pgraft_init_bootstrap ⟨1, "127.0.0.1", 7001⟩ ⟨2, "127.0.0.1", 7002⟩ (by decide)⟩

/-- C7: the worker-state query returns one of the three strings INIT,
RUNNING, ERROR in every state, and once the lifecycle is ERROR no
sequence of steps of the same process reaches INIT or RUNNING
(every state reachable from ERROR is ERROR). -/
theorem worker_state_string_and_error_terminal :
    (∀ s, pgraft_get_worker_state s = "INIT" ∨ pgraft_get_worker_state s = "RUNNING" ∨
      pgraft_get_worker_state s = "ERROR") ∧
    (∀ s, Relation.ReflTransGen WorkerStep WorkerState.ERROR s → s = WorkerState.ERROR) := by
  constructor
  · intro s
    cases s <;> simp [pgraft_get_worker_state]
  · intro s h
    induction h with
    | refl => rfl
    | tail _ h2 ih =>
      subst ih
      cases h2
      rfl

/-- Witness for C7: the query string at RUNNING, and the terminal
property applied to the empty step sequence from ERROR. -/
theorem worker_state_string_and_error_terminal_witness :
    (pgraft_get_worker_state WorkerState.RUNNING = "INIT" ∨
      pgraft_get_worker_state WorkerState.RUNNING = "RUNNING" ∨
      pgraft_get_worker_state WorkerState.RUNNING = "ERROR") ∧
    WorkerState.ERROR = WorkerState.ERROR :=
  ⟨worker_state_string_and_error_terminal.1 WorkerState.RUNNING,
   worker_state_string_and_error_terminal.2 WorkerState.ERROR Relation.ReflTransGen.refl⟩

/-- C10: both port-availability checks treat an unprobeable port as
available: is_port_in_use returns false when the probe raises,
_check_port_free returns true when the probe raises, and when every
probe raises, check_port_availability passes (no sys.exit), so an
undeterminable port never blocks cluster initialization. -/
theorem unprobeable_port_available (probe : Nat → ProbeResult)
    (hraise : ∀ p ∈ checkedPorts, probe p = probeRaises) :
    is_port_in_use probeRaises = false ∧
    check_port_free probeRaises = true ∧
    check_port_availability probe = true := by
  refine ⟨rfl, rfl, ?_⟩
  simp only [check_port_availability, List.all_eq_true]
  intro p hp
  rw [hraise p hp]
  rfl

/-- Witness for C10 with the probe that always raises. -/
theorem unprobeable_port_available_witness :
    is_port_in_use probeRaises = false ∧
    check_port_free probeRaises = true ∧
    check_port_availability (fun _ => probeRaises) = true :=
  unprobeable_port_available (fun _ => probeRaises) (fun _ _ => rfl)

/-- C3: addNode is idempotent: when a first addNode call commits with
a success result, a second call with identical arguments returns
success and leaves the membership state exactly as it was after the
first call. -/
theorem addNode_idempotent (s : MembershipState) (nodeId : Nat) (address : String)
    (port : Nat) (h : (addNode s nodeId address port).1 = AddNodeResult.accepted) :
    addNode (addNode s nodeId address port).2 nodeId address port
      = (AddNodeResult.accepted, (addNode s nodeId address port).2) := by
  by_cases hrole : s.role ≠ Role.leader
  · simp only [addNode, if_pos hrole] at h
    exact AddNodeResult.noConfusion h
  · by_cases hmem : (⟨nodeId, address, port⟩ : Member) ∈ s.members
    · have hfst : addNode s nodeId address port = (AddNodeResult.accepted, s) := by
        simp only [addNode, if_neg hrole, if_pos hmem]
      rw [hfst]
      simp only [addNode, if_neg hrole, if_pos hmem]
    · by_cases hdup : s.members.any (fun m => m.nodeId == nodeId)
      · simp only [addNode, if_neg hrole, if_neg hmem, if_pos hdup] at h
        exact AddNodeResult.noConfusion h
      · have hfst : addNode s nodeId address port =
            (AddNodeResult.accepted,
              { s with members := s.members ++ [⟨nodeId, address, port⟩],
                       changeLog := s.changeLog ++ [⟨nodeId, address, port⟩] }) := by
          simp only [addNode, if_neg hrole, if_neg hmem, if_neg hdup]
        rw [hfst]
        have hr : s.role = Role.leader := not_not.mp hrole
        have hmem2 : (⟨nodeId, address, port⟩ : Member) ∈
            s.members ++ [(⟨nodeId, address, port⟩ : Member)] :=
          List.mem_append_right _ (List.mem_singleton.mpr rfl)
        simp only [addNode, hr]
        rw [if_neg (by simp), if_pos hmem2]

/-- Witness for C3: a leader with empty membership accepts node 4
twice with the same state after each call. -/
theorem addNode_idempotent_witness :
    (addNode ⟨Role.leader, some 1, [], []⟩ 4 "127.0.0.1" 7004).1 = AddNodeResult.accepted ∧
    addNode (addNode ⟨Role.leader, some 1, [], []⟩ 4 "127.0.0.1" 7004).2 4 "127.0.0.1" 7004
      = (AddNodeResult.accepted, (addNode ⟨Role.leader, some 1, [], []⟩ 4 "127.0.0.1" 7004).2) :=
  ⟨by decide, addNode_idempotent ⟨Role.leader, some 1, [], []⟩ 4 "127.0.0.1" 7004 (by decide)⟩

/-- Helper: adopting an observed term never lowers the current term. -/
theorem adoptIfHigher_currentTerm_le (s : RaftState) (t : Nat) :
    s.currentTerm ≤ (adoptIfHigher s t).currentTerm := by
  unfold adoptIfHigher stepDown
  split_ifs with h
  · exact Nat.le_of_lt h
  · exact Nat.le_refl _

/-- Helper: no single Raft Core operation lowers the current term. -/
theorem applyOp_currentTerm_le (s : RaftState) (op : RaftOp) :
    s.currentTerm ≤ (applyOp s op).currentTerm := by
  cases op with
  | vote cid ct cli clt =>
    have hle := adoptIfHigher_currentTerm_le s ct
    simp only [applyOp, requestVote]
    split <;> exact hle
  | append lt pli plt es lc =>
    have hle := adoptIfHigher_currentTerm_le s lt
    simp only [applyOp, appendEntries]
    by_cases h0 : lt < s.currentTerm
    · simp only [if_pos h0]
      exact Nat.le_refl _
    · simp only [if_neg h0]
      cases htm : termAt (adoptIfHigher s lt).log pli with
      | none => simpa [htm] using hle
      | some t =>
        simp only [htm]
        split <;> exact hle
  | tickTimer te =>
    simp only [applyOp, tick]
    cases s.role <;> simp only [] <;> first
      | exact Nat.le_refl _
      | (split_ifs <;> simp)

/-- Helper: no serialized sequence of operations lowers the term. -/
theorem runOps_currentTerm_le (ops : List RaftOp) (s : RaftState) :
    s.currentTerm ≤ (runOps s ops).currentTerm := by
  induction ops generalizing s with
  | nil => exact Nat.le_refl _
  | cons op rest ih =>
    exact Nat.le_trans (applyOp_currentTerm_le s op) (ih (applyOp s op))

/-- C6: monotonic term: along any serialized sequence of Raft Core
operations, the current term observed after the first i operations is
at most the current term observed after the first j operations,
whenever i is at most j. -/
theorem currentTerm_monotonic (s : RaftState) (ops : List RaftOp) (i j : Nat)
    (hij : i ≤ j) :
    (runOps s (ops.take i)).currentTerm ≤ (runOps s (ops.take j)).currentTerm := by
  have h1 : (ops.take j).take i = ops.take i := by
    rw [List.take_take, Nat.min_eq_left hij]
  have hsplit : ops.take j = ops.take i ++ (ops.take j).drop i := by
    rw [← h1]
    exact (List.take_append_drop i (ops.take j)).symm
  calc (runOps s (ops.take i)).currentTerm
      ≤ (runOps (runOps s (ops.take i)) ((ops.take j).drop i)).currentTerm :=
        runOps_currentTerm_le _ _
    _ = (runOps s (ops.take j)).currentTerm := by
        conv_rhs => rw [hsplit]
        simp [runOps, List.foldl_append]

/-- Witness for C6: a fresh follower ticking once with an elapsed
election timeout, observed at times 0 and 1. -/
theorem currentTerm_monotonic_witness :
    (0 : Nat) ≤ 1 ∧
    (runOps ⟨1, 0, none, Role.follower, [], 0⟩ ([RaftOp.tickTimer true].take 0)).currentTerm ≤
      (runOps ⟨1, 0, none, Role.follower, [], 0⟩ ([RaftOp.tickTimer true].take 1)).currentTerm :=
  ⟨by decide,
   currentTerm_monotonic ⟨1, 0, none, Role.follower, [], 0⟩ [RaftOp.tickTimer true] 0 1
     (by decide)⟩

/-- Helper: the wait loop either exhausts its iterations with
waited_time equal to the bound, or breaks with waited_time strictly
below the bound. -/
theorem waitLoop_final_bounds (obs : Nat → WorkerObs) :
    ∀ remaining waited,
      ((waitLoop obs waited remaining).1 = LoopExit.exhausted ∧
        (waitLoop obs waited remaining).2 = waited + remaining) ∨
      (waitLoop obs waited remaining).2 < waited + remaining := by
  intro remaining
  induction remaining with
  | zero =>
    intro waited
    left
    exact ⟨rfl, rfl⟩
  | succ n ih =>
    intro waited
    cases h : obs waited with
    | raised =>
      right
      simp only [waitLoop, h]
      omega
    | state s =>
      by_cases h1 : s = "RUNNING"
      · right
        simp only [waitLoop, h, if_pos h1]
        omega
      · by_cases h2 : s = "ERROR"
        · right
          simp only [waitLoop, h, if_neg h1, if_pos h2]
          omega
        · simp only [waitLoop, h, if_neg h1, if_neg h2]
          rcases ih (waited + 1) with ⟨he, hv⟩ | hv
          · left
            refine ⟨he, ?_⟩
            omega
          · right
            omega

/-- Helper: when the wait loop exhausts its iterations, every probed
second observed a state string other than RUNNING and ERROR, without
an exception. -/
theorem waitLoop_exhausted_state (obs : Nat → WorkerObs) :
    ∀ remaining waited, (waitLoop obs waited remaining).1 = LoopExit.exhausted →
      ∀ k, waited ≤ k → k < waited + remaining →
        ∃ s, obs k = WorkerObs.state s ∧ s ≠ "RUNNING" ∧ s ≠ "ERROR" := by
  intro remaining
  induction remaining with
  | zero =>
    intro waited _ k hk1 hk2
    omega
  | succ n ih =>
    intro waited hex k hk1 hk2
    cases h : obs waited with
    | raised =>
      simp only [waitLoop, h] at hex
      exact LoopExit.noConfusion hex
    | state s =>
      by_cases h1 : s = "RUNNING"
      · simp only [waitLoop, h, if_pos h1] at hex
        exact LoopExit.noConfusion hex
      · by_cases h2 : s = "ERROR"
        · simp only [waitLoop, h, if_neg h1, if_pos h2] at hex
          exact LoopExit.noConfusion hex
        · simp only [waitLoop, h, if_neg h1, if_neg h2] at hex
          by_cases hk : k = waited
          · subst hk
            exact ⟨s, h, h1, h2⟩
          · exact ih (waited + 1) hex k (by omega) (by omega)

/-- C8: in setup_pgraft_extension, observing worker state ERROR
before the 30-second timeout breaks the wait loop and setup proceeds
(the node is logged ready and setup goes on to configure cluster
peers); sys.exit(1) is reached from the wait loop only when all 30
probes saw a state string other than RUNNING and ERROR. -/
theorem worker_error_before_timeout_proceeds (obs : Nat → WorkerObs) :
    ((waitLoop obs 0 30).1 = LoopExit.sawError → setupAfterWait obs = SetupStep.proceed) ∧
    (setupAfterWait obs = SetupStep.exit1 →
      ∀ k, k < 30 → ∃ s, obs k = WorkerObs.state s ∧ s ≠ "RUNNING" ∧ s ≠ "ERROR") := by
  constructor
  · intro herr
    rcases waitLoop_final_bounds obs 30 0 with ⟨hex, _⟩ | hlt
    · rw [herr] at hex
      exact LoopExit.noConfusion hex
    · unfold setupAfterWait
      rw [if_neg (by omega)]
  · intro hexit k hk
    by_cases hge : 30 ≤ (waitLoop obs 0 30).2
    · rcases waitLoop_final_bounds obs 30 0 with ⟨hex, _⟩ | hlt
      · exact waitLoop_exhausted_state obs 30 0 hex k (Nat.zero_le k) (by omega)
      · omega
    · unfold setupAfterWait at hexit
      rw [if_neg hge] at hexit
      exact SetupStep.noConfusion hexit

/-- Witness for C8: the worker reports ERROR at the first probe; the
loop breaks and setup proceeds. -/
theorem worker_error_before_timeout_proceeds_witness :
    (waitLoop (fun _ => WorkerObs.state "ERROR") 0 30).1 = LoopExit.sawError ∧
    setupAfterWait (fun _ => WorkerObs.state "ERROR") = SetupStep.proceed :=
  ⟨by decide,
   (worker_error_before_timeout_proceeds (fun _ => WorkerObs.state "ERROR")).1 (by decide)⟩

/-- C9: get_cluster_status is total over per-node psycopg2 outcomes:
it returns an entry for every configured node, and classifies
cluster_health as healthy iff all configured nodes report status
running, degraded iff at least one but not all do, and down iff none
do. -/
theorem get_cluster_status_total_and_health (outcome : String → ConnOutcome) :
    ((get_cluster_status outcome).nodes.map Prod.fst = clusterNodes.map Prod.fst) ∧
    ((get_cluster_status outcome).cluster_health = "healthy" ↔
      ∀ p ∈ (get_cluster_status outcome).nodes, p.2.status = "running") ∧
    ((get_cluster_status outcome).cluster_health = "degraded" ↔
      ((∃ p ∈ (get_cluster_status outcome).nodes, p.2.status = "running") ∧
        ¬ ∀ p ∈ (get_cluster_status outcome).nodes, p.2.status = "running")) ∧
    ((get_cluster_status outcome).cluster_health = "down" ↔
      ∀ p ∈ (get_cluster_status outcome).nodes, p.2.status ≠ "running") := by
  cases h1 : outcome "primary1" <;> cases h2 : outcome "replica1" <;>
    cases h3 : outcome "replica2" <;>
      simp [get_cluster_status, clusterNodes, nodeStatusOf, h1, h2, h3]

end Pgraft
